import Mathlib

/-!
Verification of the Telbooru core against its implementation.

The Python sources are shallowly embedded: JSON-like Python values become the
inductive `PyVal`, Python dicts become insertion-ordered association lists,
HTTP request outcomes become `Except ApiError PyVal` oracles, and each method
under verification becomes a pure Lean function mirroring the source line by
line.  Theorems below settle the frozen claims about query composition,
response normalization, the post-search fallback protocol, pagination and
per-user settings.
-/

namespace Telbooru

/-- JSON-like Python value, as handled by the API layer
(`None`, booleans, ints, strings, lists, dicts in insertion order). -/
inductive PyVal where
  | none
  | bool (b : Bool)
  | int (n : Int)
  | str (s : String)
  | list (xs : List PyVal)
  | dict (kvs : List (String × PyVal))

/-- Python `d[k]` lookup on an insertion-ordered association list. -/
def pyDictLookup (kvs : List (String × PyVal)) (k : String) : Option PyVal :=
  match kvs with
  | [] => Option.none
  | (k', v) :: rest => if k' = k then some v else pyDictLookup rest k

/-- Python `d[k] = v`: update in place when the key exists, append otherwise. -/
def pyDictSet (kvs : List (String × PyVal)) (k : String) (v : PyVal) :
    List (String × PyVal) :=
  match kvs with
  | [] => [(k, v)]
  | (k', v') :: rest =>
    if k' = k then (k', v) :: rest else (k', v') :: pyDictSet rest k v

/-- Python `d.get(k, default)`; non-dicts yield the default
(the sources only call `.get` on values already checked to be dicts). -/
def pyDictGetD (v : PyVal) (key : String) (dflt : PyVal) : PyVal :=
  match v with
  | PyVal.dict kvs => (pyDictLookup kvs key).getD dflt
  | _ => dflt

/-- Python truthiness of a `PyVal`. -/
def pyTruthy : PyVal → Bool
  | PyVal.none => false
  | PyVal.bool b => b
  | PyVal.int n => n != 0
  | PyVal.str s => s != ""
  | PyVal.list xs => !xs.isEmpty
  | PyVal.dict kvs => !kvs.isEmpty

/-- Error conditions raised by `_make_request`
(`aiohttp.ClientConnectionError`, `aiohttp.ClientResponseError`,
`asyncio.TimeoutError`, anything else). -/
inductive ApiError where
  | connection (msg : String)
  | http (status : Int) (msg : String)
  | timeout (msg : String)
  | other (msg : String)

/-- Response-shape normalization shared verbatim by
`BooruAPIWrapper.get_posts` (main.py) and `BooruRepository.get_posts`
(repositories/booru_repository.py): `None` becomes `{'post': []}`, a bare
list is wrapped as `{'post': list}`, a non-dict becomes `{'post': []}`, and
a dict lacking `'post'` but carrying `'posts'` gets `'post'` aliased to it. -/
def normalizePostsResponse (result : PyVal) : PyVal :=
  match result with
  | PyVal.none => PyVal.dict [("post", PyVal.list [])]
  | PyVal.list xs => PyVal.dict [("post", PyVal.list xs)]
  | PyVal.dict kvs =>
    if (pyDictLookup kvs "post").isNone && (pyDictLookup kvs "posts").isSome then
      PyVal.dict (pyDictSet kvs "post" ((pyDictLookup kvs "posts").getD PyVal.none))
    else PyVal.dict kvs
  | _ => PyVal.dict [("post", PyVal.list [])]

/-- Primary-format post-search parameters built by `BooruAPIWrapper.get_posts`
(main.py): `page=dapi, s=post, q=index`, `limit=min(limit, 100)`, `pid`,
`json=1`, plus `tags`, `cid`, `id` when given. -/
def mainPostParams (limit pid : Int) (tags : String) (cid postId : Option Int) :
    List (String × String) :=
  [("page", "dapi"), ("s", "post"), ("q", "index"),
   ("limit", toString (min limit 100)), ("pid", toString pid), ("json", "1")]
  ++ (if tags = "" then [] else [("tags", tags)])
  ++ (match cid with | some c => [("cid", toString c)] | Option.none => [])
  ++ (match postId with | some i => [("id", toString i)] | Option.none => [])

/-- Alternate-format parameters used by the fallback branch of
`BooruAPIWrapper.get_posts`: `page=post, s=list`, carrying over
`limit=min(limit, 100)`, `pid`, `tags` (when non-empty) and `id` (when set). -/
def altPostParams (limit pid : Int) (tags : String) (postId : Option Int) :
    List (String × String) :=
  [("page", "post"), ("s", "list"),
   ("limit", toString (min limit 100)), ("pid", toString pid), ("json", "1")]
  ++ (if tags = "" then [] else [("tags", tags)])
  ++ (match postId with | some i => [("id", toString i)] | Option.none => [])

/-- Post-search parameters built by `BooruRepository.get_posts`
(repositories/booru_repository.py), structurally identical to the main-path
primary format. -/
def repoPostParams (limit page : Int) (tags : String) (changeId postId : Option Int) :
    List (String × String) :=
  [("page", "dapi"), ("s", "post"), ("q", "index"),
   ("limit", toString (min limit 100)), ("pid", toString page), ("json", "1")]
  ++ (if tags = "" then [] else [("tags", tags)])
  ++ (match changeId with | some c => [("cid", toString c)] | Option.none => [])
  ++ (match postId with | some i => [("id", toString i)] | Option.none => [])

/-- The clamped limit value both `get_posts` implementations place in the
request parameters: `min(limit, 100)`. -/
def sentLimit (limit : Int) : Int := min limit 100

/-- Outcome semantics of `BooruAPIWrapper.get_posts` (main.py), with the two
HTTP requests abstracted as their outcomes.  The primary result is
normalized; on any primary exception the method issues exactly one fallback
request (the `alt_params` format) and returns `alt_result if alt_result else
{'post': []}` on success and `{'post': []}` on failure, so no error ever
escapes once the primary request has failed. -/
def getPostsWithFallback (primary fallback : Except ApiError PyVal) : PyVal :=
  match primary with
  | Except.ok result => normalizePostsResponse result
  | Except.error _ =>
    match fallback with
    | Except.ok altResult =>
      if pyTruthy altResult then altResult else PyVal.dict [("post", PyVal.list [])]
    | Except.error _ => PyVal.dict [("post", PyVal.list [])]

/-- `BooruService.search_posts` (services/booru_service.py) result extraction:
`posts = result.get('post', [])`, then a single dict is wrapped as a
one-element list. -/
def extractPosts (result : PyVal) : PyVal :=
  match pyDictGetD result "post" (PyVal.list []) with
  | PyVal.dict kvs => PyVal.list [PyVal.dict kvs]
  | posts => posts

/-- `BooruService.search_posts` applied to a successful upstream response:
the repository normalizes the shape, then the service extracts the post
list, wrapping a single dict as a one-element list. -/
def servicePostsList (upstream : PyVal) : PyVal :=
  extractPosts (normalizePostsResponse upstream)

/-- Claim C1: when the primary-format post search fails, the client retries
exactly once with the alternate format (`page=post, s=list`) carrying over
`tags`, `limit`, `pid` and `id`; a successful fallback carrying N posts is
returned with no error surfaced, and a failing fallback degrades to the
empty result set `{'post': []}` (the model's return type has no error
channel once the primary request has failed). -/
theorem post_search_fallback (e e2 : ApiError) (posts : List PyVal)
    (limit pid : Int) (tags : String) (cid postId : Option Int) :
    getPostsWithFallback (Except.error e)
        (Except.ok (PyVal.dict [("post", PyVal.list posts)]))
      = PyVal.dict [("post", PyVal.list posts)] ∧
    getPostsWithFallback (Except.error e) (Except.error e2)
      = PyVal.dict [("post", PyVal.list [])] ∧
    ("page", "post") ∈ altPostParams limit pid tags postId ∧
    ("s", "list") ∈ altPostParams limit pid tags postId ∧
    ("limit", toString (sentLimit limit)) ∈ altPostParams limit pid tags postId ∧
    ("pid", toString pid) ∈ altPostParams limit pid tags postId ∧
    (tags ≠ "" → ("tags", tags) ∈ altPostParams limit pid tags postId ∧
                 ("tags", tags) ∈ mainPostParams limit pid tags cid postId) ∧
    (∀ i : Int, postId = some i → ("id", toString i) ∈ altPostParams limit pid tags postId) := by
  refine ⟨rfl, rfl, ?_, ?_, ?_, ?_, ?_, ?_⟩
  · simp [altPostParams]
  · simp [altPostParams]
  · simp [altPostParams, sentLimit]
  · simp [altPostParams]
  · intro ht
    constructor
    · simp [altPostParams, ht]
    · simp [mainPostParams, ht]
  · intro i hi
    simp [altPostParams, hi]

/-- Witness for C1 at a concrete input: a connection error on the primary
request and a fallback succeeding with 3 posts. -/
theorem post_search_fallback_witness :
    getPostsWithFallback (Except.error (ApiError.connection "down"))
        (Except.ok (PyVal.dict [("post", PyVal.list [PyVal.int 1, PyVal.int 2, PyVal.int 3])]))
      = PyVal.dict [("post", PyVal.list [PyVal.int 1, PyVal.int 2, PyVal.int 3])] ∧
    getPostsWithFallback (Except.error (ApiError.connection "down"))
        (Except.error (ApiError.http 500 "server error"))
      = PyVal.dict [("post", PyVal.list [])] ∧
    ("tags", "cat") ∈ altPostParams 50 0 "cat" (some 7) ∧
    ("id", toString (7 : Int)) ∈ altPostParams 50 0 "cat" (some 7) := by
  have h := post_search_fallback (ApiError.connection "down") (ApiError.http 500 "server error")
    [PyVal.int 1, PyVal.int 2, PyVal.int 3] 50 0 "cat" Option.none (some 7)
  exact ⟨h.1, h.2.1, (h.2.2.2.2.2.2.1 (by decide)).1, h.2.2.2.2.2.2.2 7 rfl⟩

/-- Counterexample to claim C5: requesting `limit=0` sends `limit=0` upstream
(both implementations clamp only with `min(limit, 100)`), and `0` is not in
`[1, 100]`. -/
theorem limit_clamp_counterexample :
    sentLimit 0 = 0 ∧
    ¬ (1 ≤ sentLimit 0) ∧
    ("limit", toString (sentLimit 0)) ∈ mainPostParams 0 0 "" Option.none Option.none ∧
    ("limit", toString (sentLimit 0)) ∈ repoPostParams 0 0 "" Option.none Option.none := by
  refine ⟨rfl, by decide, ?_, ?_⟩
  · simp [mainPostParams, sentLimit]
  · simp [repoPostParams, sentLimit]

/-- Claim C5 as amended: the limit sent upstream is `min(limit, 100)` in both
`get_posts` implementations — never above 100, but with no lower bound, so it
lies in `[1, 100]` exactly when the requested limit is at least 1. -/
theorem limit_clamp_upper_only (limit pid : Int) (tags : String)
    (cid postId : Option Int) :
    sentLimit limit ≤ 100 ∧
    (1 ≤ limit → 1 ≤ sentLimit limit ∧ sentLimit limit ≤ 100) ∧
    ("limit", toString (sentLimit limit)) ∈ mainPostParams limit pid tags cid postId ∧
    ("limit", toString (sentLimit limit)) ∈ repoPostParams limit pid tags cid postId := by
  refine ⟨min_le_right _ _, ?_, ?_, ?_⟩
  · intro h1
    exact ⟨le_min h1 (by norm_num), min_le_right _ _⟩
  · simp [mainPostParams, sentLimit]
  · simp [repoPostParams, sentLimit]

/-- Witness for C5's amended claim at `limit=50`. -/
theorem limit_clamp_upper_only_witness :
    1 ≤ sentLimit 50 ∧ sentLimit 50 ≤ 100 ∧
    ("limit", toString (sentLimit 50)) ∈ mainPostParams 50 0 "" Option.none Option.none := by
  have h := limit_clamp_upper_only 50 0 "" Option.none Option.none
  exact ⟨(h.2.1 (by decide)).1, (h.2.1 (by decide)).2, h.2.2.1⟩

/-- Claim C3: an upstream post-search response whose value under the resource
key `'post'` is a single dict is passed through the repository normalization
unchanged and then wrapped by the service as a one-element list before any
business logic uses it. -/
theorem single_object_post_wrapped (kvs obj : List (String × PyVal))
    (h : pyDictLookup kvs "post" = some (PyVal.dict obj)) :
    servicePostsList (PyVal.dict kvs) = PyVal.list [PyVal.dict obj] := by
  have hnorm : normalizePostsResponse (PyVal.dict kvs) = PyVal.dict kvs := by
    unfold normalizePostsResponse
    simp [h]
  unfold servicePostsList
  rw [hnorm]
  simp [extractPosts, pyDictGetD, h]

/-- Witness for C3: `{"post": {"id": 1}}` normalizes to the one-element list
`[{"id": 1}]`. -/
theorem single_object_post_wrapped_witness :
    servicePostsList (PyVal.dict [("post", PyVal.dict [("id", PyVal.int 1)])])
      = PyVal.list [PyVal.dict [("id", PyVal.int 1)]] :=
  single_object_post_wrapped _ _ rfl

/-- The whitespace characters removed by Python's `str.strip()` (ASCII part). -/
def isPySpace (c : Char) : Bool :=
  c = ' ' || c = '\t' || c = '\n' || c = '\r' || c = '\x0b' || c = '\x0c'

/-- Python `str.strip()` on a character list: drop whitespace from the front,
then from the back (via reversal). -/
def pyStripList (l : List Char) : List Char :=
  ((l.dropWhile isPySpace).reverse.dropWhile isPySpace).reverse

/-- Python `str.strip()`. -/
def pyStrip (s : String) : String := ⟨pyStripList s.data⟩

/-- Python `" ".join(parts)`. -/
def joinSpace (parts : List String) : String := String.intercalate " " parts

/-- Per-user settings (`UserSettings` dataclass in
repositories/user_repository.py): ordered auto tags and an
insertion-ordered rule-to-enabled mapping. -/
structure UserSettings where
  auto_tags : List String := []
  toggle_rules : List (String × Bool) := []

/-- `[rule for rule, enabled in toggle_rules.items() if enabled]`. -/
def enabledRules (rules : List (String × Bool)) : List String :=
  (rules.filter (fun kv => kv.2)).map (fun kv => kv.1)

/-- `f"{tags} {part}" if tags else part` — the appending step used for both
auto tags and enabled toggle rules. -/
def appendPart (tags part : String) : String :=
  if tags = "" then part else tags ++ " " ++ part

/-- The auto-tag step of `BooruService._apply_user_preferences`. -/
def applyAutoTags (tags : String) (auto : List String) : String :=
  if auto = [] then tags else appendPart tags (joinSpace auto)

/-- The toggle-rule step of `BooruService._apply_user_preferences`. -/
def applyToggles (tags : String) (enabled : List String) : String :=
  if enabled = [] then tags else appendPart tags (joinSpace enabled)

/-- `BooruService._apply_user_preferences` (services/booru_service.py): append
the joined auto tags when present, then the joined enabled toggle rules, and
strip the result.  `TelbooruBot.perform_batch_search` (main.py) inlines the
same steps without the final strip. -/
def applyUserPreferences (tags : String) (settings : UserSettings) : String :=
  pyStrip (applyToggles (applyAutoTags tags settings.auto_tags)
    (enabledRules settings.toggle_rules))

/-- Modelled from the spec's words, for comparison with the source-derived
`applyUserPreferences`: the base query, followed by the auto tags joined with
single spaces (when non-empty), followed by the enabled rule strings joined
with single spaces (in mapping iteration order), the whole trimmed of leading
and trailing whitespace. -/
def composeSpec (base : String) (settings : UserSettings) : String :=
  pyStrip (base
    ++ (if settings.auto_tags = [] then "" else " " ++ joinSpace settings.auto_tags)
    ++ (if enabledRules settings.toggle_rules = [] then ""
        else " " ++ joinSpace (enabledRules settings.toggle_rules)))

theorem pyStripList_cons_space (l : List Char) :
    pyStripList (' ' :: l) = pyStripList l := by
  unfold pyStripList
  have hdrop : List.dropWhile isPySpace (' ' :: l) = List.dropWhile isPySpace l := by
    simp [List.dropWhile, isPySpace]
  rw [hdrop]

theorem pyStrip_congr_data {s t : String} (h : pyStripList s.data = pyStripList t.data) :
    pyStrip s = pyStrip t :=
  congrArg String.mk h

theorem data_empty : ("" : String).data = [] := rfl

theorem data_space : (" " : String).data = [' '] := rfl

theorem append_space_ne_empty (a b : String) : a ++ " " ++ b ≠ "" := by
  intro h
  have hd := congrArg String.data h
  simp [String.data_append, data_empty] at hd

theorem appendPart_empty (part : String) : appendPart "" part = part :=
  if_pos rfl

theorem appendPart_of_ne (tags part : String) (h : tags ≠ "") :
    appendPart tags part = tags ++ " " ++ part :=
  if_neg h

theorem applyAutoTags_nil (tags : String) {auto : List String} (h : auto = []) :
    applyAutoTags tags auto = tags := by
  rw [applyAutoTags, if_pos h]

theorem applyAutoTags_of_ne (tags : String) {auto : List String} (h : auto ≠ []) :
    applyAutoTags tags auto = appendPart tags (joinSpace auto) := by
  rw [applyAutoTags, if_neg h]

theorem applyToggles_nil (tags : String) {enabled : List String} (h : enabled = []) :
    applyToggles tags enabled = tags := by
  rw [applyToggles, if_pos h]

theorem applyToggles_of_ne (tags : String) {enabled : List String} (h : enabled ≠ []) :
    applyToggles tags enabled = appendPart tags (joinSpace enabled) := by
  rw [applyToggles, if_neg h]

/-- Claim C4: `compose` returns the base query, then the auto tags joined
with single spaces (when non-empty), then the rule strings of the enabled
toggle rules joined with single spaces in mapping iteration order, the whole
trimmed of leading and trailing whitespace; in particular
`compose("q", {auto_tags=["a","b"], toggle_rules={"rating:safe": true,
"x": false}}) = "q a b rating:safe"` and composing an empty query with empty
settings yields `""`. -/
theorem compose_query_composition (base : String) (settings : UserSettings) :
    applyUserPreferences base settings = composeSpec base settings ∧
    applyUserPreferences "q"
        ⟨["a", "b"], [("rating:safe", true), ("x", false)]⟩ = "q a b rating:safe" ∧
    applyUserPreferences "" ⟨[], []⟩ = "" := by
  refine ⟨?_, by decide, by decide⟩
  unfold applyUserPreferences composeSpec
  by_cases hA : settings.auto_tags = []
  · rw [applyAutoTags_nil base hA, if_pos hA]
    by_cases hE : enabledRules settings.toggle_rules = []
    · rw [applyToggles_nil base hE, if_pos hE]
      apply pyStrip_congr_data
      simp only [String.data_append, data_empty, List.append_nil]
    · rw [applyToggles_of_ne base hE, if_neg hE]
      by_cases hB : base = ""
      · subst hB
        rw [appendPart_empty]
        apply pyStrip_congr_data
        simp only [String.data_append, data_empty, data_space, List.nil_append,
          List.singleton_append, List.cons_append, List.append_assoc]
        rw [pyStripList_cons_space]
      · rw [appendPart_of_ne base _ hB]
        apply pyStrip_congr_data
        simp only [String.data_append, data_empty, data_space, List.nil_append,
          List.singleton_append, List.cons_append, List.append_assoc]
  · rw [applyAutoTags_of_ne base hA, if_neg hA]
    by_cases hE : enabledRules settings.toggle_rules = []
    · rw [applyToggles_nil _ hE, if_pos hE]
      by_cases hB : base = ""
      · subst hB
        rw [appendPart_empty]
        apply pyStrip_congr_data
        simp only [String.data_append, data_empty, data_space, List.nil_append,
          List.singleton_append, List.cons_append, List.append_assoc,
          List.append_nil]
        rw [pyStripList_cons_space]
      · rw [appendPart_of_ne base _ hB]
        apply pyStrip_congr_data
        simp only [String.data_append, data_empty, data_space, List.nil_append,
          List.singleton_append, List.cons_append, List.append_assoc,
          List.append_nil]
    · rw [applyToggles_of_ne _ hE, if_neg hE]
      by_cases hB : base = ""
      · subst hB
        rw [appendPart_empty]
        by_cases hJ : joinSpace settings.auto_tags = ""
        · rw [hJ, appendPart_empty]
          apply pyStrip_congr_data
          simp only [String.data_append, data_empty, data_space, List.nil_append,
            List.singleton_append, List.cons_append, List.append_assoc]
          rw [pyStripList_cons_space, pyStripList_cons_space]
        · rw [appendPart_of_ne _ _ hJ]
          apply pyStrip_congr_data
          simp only [String.data_append, data_empty, data_space, List.nil_append,
            List.singleton_append, List.cons_append, List.append_assoc]
          rw [pyStripList_cons_space]
      · rw [appendPart_of_ne base _ hB,
          appendPart_of_ne _ _ (append_space_ne_empty base (joinSpace settings.auto_tags))]
        apply pyStrip_congr_data
        simp only [String.data_append, data_empty, data_space, List.nil_append,
          List.singleton_append, List.cons_append, List.append_assoc]

/-- `SearchState` dataclass (main.py / repositories/search_repository.py). -/
structure SearchState where
  query : String
  results : List PyVal := []
  current_page : Int := 0
  total_pages : Int := 0
  posts_per_page : Int := 5
  last_menu_message_id : Option Int := Option.none

/-- `SearchRepository.update_page` (repositories/search_repository.py),
viewed at the single user's slot of the state map: when a state exists its
`current_page` is set to `page` and `True` is returned; otherwise `False`.
`TelbooruBot.show_search_page` (main.py) performs the same unconditional
assignment. -/
def update_page (state : Option SearchState) (page : Int) : Bool × Option SearchState :=
  match state with
  | some st => (true, some { st with current_page := page })
  | Option.none => (false, Option.none)

/-- A session whose `total_pages` is 3, as in the claim's example. -/
def threePageState : SearchState :=
  { query := "q", results := [PyVal.dict [("id", PyVal.int 1)]], current_page := 0,
    total_pages := 3, posts_per_page := 5, last_menu_message_id := Option.none }

/-- Counterexample to claim C2: `update_page` performs no bounds check, so
requesting page 5 on a 3-page session returns `True` (not `False`) and
stores `current_page = 5`. -/
theorem goto_page_counterexample :
    threePageState.total_pages = 3 ∧
    ¬ (0 ≤ (5 : Int) ∧ (5 : Int) ≤ threePageState.total_pages - 1) ∧
    (update_page (some threePageState) 5).1 = true ∧
    (update_page (some threePageState) 5).2
      = some { threePageState with current_page := 5 } ∧
    ¬ ((update_page (some threePageState) 5).1 = false) := by
  refine ⟨rfl, by decide, rfl, rfl, ?_⟩
  intro h
  exact absurd h (by decide)

/-- Claim C2 as amended: `update_page` is a no-op returning `False` exactly
when no session exists; when a session exists it returns `True` and sets
`current_page` to the requested page unconditionally — no range check against
`[0, total_pages-1]` is performed, so out-of-range pages are stored as-is. -/
theorem update_page_no_bounds_check (st : SearchState) (page : Int) :
    update_page Option.none page = (false, Option.none) ∧
    update_page (some st) page = (true, some { st with current_page := page }) :=
  ⟨rfl, rfl⟩

/-- `total_pages=(len(posts) - 1) // 5 + 1` as computed by
`TelbooruBot.perform_batch_search` (main.py); `//` is Python floor
division. -/
def totalPages {α : Type} (posts : List α) : Int :=
  ((posts.length : Int) - 1).fdiv 5 + 1

/-- Python slice `l[a:b]` for `0 ≤ a ≤ b`. -/
def pySlice {α : Type} (l : List α) (a b : Nat) : List α :=
  (l.drop a).take (b - a)

/-- The page slice computed by `TelbooruBot.send_search_results_page`
(main.py): `start_idx = page * posts_per_page`,
`end_idx = min(start_idx + posts_per_page, len(results))`,
`page_posts = results[start_idx:end_idx]`. -/
def pagePosts {α : Type} (results : List α) (ppp page : Nat) : List α :=
  pySlice results (page * ppp) (min (page * ppp + ppp) results.length)

/-- Claim C7: for a non-empty result list, `total_pages` equals
`ceil(len(results)/5)` (written `(len+4)/5`), and the page slice at `page`
is exactly the 5-element window `results[page*5 : min((page+1)*5, len)]`,
i.e. `take 5` after `drop (page*5)`; for 12 results this gives 3 pages and
page 2 holds the two trailing results. -/
theorem pagination_pages_and_slice {α : Type} (results : List α) (page : Nat)
    (h : results ≠ []) :
    totalPages results = ((results.length : Int) + 4) / 5 ∧
    pagePosts results 5 page = (results.drop (page * 5)).take 5 := by
  constructor
  · have hlen : 1 ≤ results.length := List.length_pos.mpr h
    unfold totalPages
    rw [Int.fdiv_eq_ediv _ (by norm_num)]
    omega
  · unfold pagePosts pySlice
    by_cases hle : page * 5 + 5 ≤ results.length
    · rw [min_eq_left hle]
      congr 1
      omega
    · rw [min_eq_right (by omega)]
      have hdlen : (results.drop (page * 5)).length = results.length - page * 5 :=
        List.length_drop _ _
      rw [List.take_of_length_le (by omega), List.take_of_length_le (by omega)]

/-- Witness for C7: 12 results yield 3 pages, and page 2 is exactly the two
trailing results (indices 10 and 11). -/
theorem pagination_pages_and_slice_witness :
    List.range 12 ≠ [] ∧
    totalPages (List.range 12) = 3 ∧
    pagePosts (List.range 12) 5 2 = [10, 11] := by
  have h := pagination_pages_and_slice (List.range 12) 2 (by decide)
  refine ⟨by decide, ?_, ?_⟩
  · rw [h.1]; decide
  · rw [h.2]; decide

/-- Result of `TelbooruBot.send_full_image` (main.py) as seen by the caller:
either the "Media not found." answer, a sent post, or an uncaught Python
`IndexError`. -/
inductive MediaResult where
  | notFound
  | sent (post : PyVal)
  | indexError

/-- Python `l[i]` indexing semantics with negative wrap-around; `none`
models the `IndexError` raise. -/
def pyListGet {α : Type} (l : List α) (i : Int) : Option α :=
  let j : Int := if i < 0 then i + l.length else i
  if 0 ≤ j ∧ j < l.length then l.get? j.toNat else Option.none

/-- `TelbooruBot.send_full_image` (main.py): answers "Media not found." when
no session exists or `post_index >= len(results)`, otherwise evaluates
`search_state.results[post_index]` with Python indexing. -/
def sendFullImage (state : Option SearchState) (postIndex : Int) : MediaResult :=
  match state with
  | Option.none => MediaResult.notFound
  | some st =>
    if (st.results.length : Int) ≤ postIndex then MediaResult.notFound
    else
      match pyListGet st.results postIndex with
      | some post => MediaResult.sent post
      | Option.none => MediaResult.indexError

/-- A one-result session used in the C8 counterexample. -/
def oneResultState : SearchState :=
  { query := "q", results := [PyVal.dict [("id", PyVal.int 42)]], current_page := 0,
    total_pages := 1, posts_per_page := 5, last_menu_message_id := Option.none }

/-- Counterexample to claim C8: the out-of-bounds guard only checks
`post_index >= len(results)`, so the negative index `-1` is not rejected —
Python negative indexing applies and the last post is sent instead of the
not-found signal the claim requires. -/
theorem select_post_negative_counterexample :
    sendFullImage (some oneResultState) (-1)
      = MediaResult.sent (PyVal.dict [("id", PyVal.int 42)]) ∧
    MediaResult.sent (PyVal.dict [("id", PyVal.int 42)]) ≠ MediaResult.notFound := by
  constructor
  · rfl
  · intro h
    cases h

/-- Claim C8 as amended: `selectPost` returns `results[i]` for
`0 ≤ i < len(results)` and the not-found signal when `i ≥ len(results)` or no
session exists; but for negative indices the guard does not fire and Python
negative indexing applies, so `-len ≤ i < 0` yields `results[len + i]`
rather than the not-found signal. -/
theorem select_post_bounds (st : SearchState) (i : Int) (p : PyVal) :
    sendFullImage Option.none i = MediaResult.notFound ∧
    ((st.results.length : Int) ≤ i → sendFullImage (some st) i = MediaResult.notFound) ∧
    (0 ≤ i → i < (st.results.length : Int) → st.results.get? i.toNat = some p →
      sendFullImage (some st) i = MediaResult.sent p) ∧
    (i < 0 → -(st.results.length : Int) ≤ i →
      st.results.get? (i + st.results.length).toNat = some p →
      sendFullImage (some st) i = MediaResult.sent p) := by
  refine ⟨rfl, ?_, ?_, ?_⟩
  · intro hge
    simp only [sendFullImage]
    rw [if_pos hge]
  · intro h0 hlt hget
    simp only [sendFullImage, pyListGet]
    rw [if_neg (not_le.mpr hlt)]
    rw [if_neg (not_lt.mpr h0)]
    rw [if_pos ⟨h0, hlt⟩, hget]
  · intro hneg hge hget
    simp only [sendFullImage, pyListGet]
    have hlen0 : (0 : Int) ≤ (st.results.length : Int) := Int.ofNat_nonneg _
    have hnotle : ¬ ((st.results.length : Int) ≤ i) := by omega
    rw [if_neg hnotle]
    rw [if_pos hneg]
    have hcond : 0 ≤ i + (st.results.length : Int) ∧
        i + (st.results.length : Int) < (st.results.length : Int) := by
      constructor <;> omega
    rw [if_pos hcond, hget]

/-- Witness for C8's amended claim on a concrete two-post session. -/
theorem select_post_bounds_witness :
    sendFullImage
        (some { query := "q", results := [PyVal.int 1, PyVal.int 2], current_page := 0,
                total_pages := 1, posts_per_page := 5, last_menu_message_id := Option.none }) 2
      = MediaResult.notFound ∧
    sendFullImage
        (some { query := "q", results := [PyVal.int 1, PyVal.int 2], current_page := 0,
                total_pages := 1, posts_per_page := 5, last_menu_message_id := Option.none }) 1
      = MediaResult.sent (PyVal.int 2) ∧
    sendFullImage
        (some { query := "q", results := [PyVal.int 1, PyVal.int 2], current_page := 0,
                total_pages := 1, posts_per_page := 5, last_menu_message_id := Option.none }) (-2)
      = MediaResult.sent (PyVal.int 1) := by
  refine ⟨?_, ?_, ?_⟩
  · exact (select_post_bounds _ 2 (PyVal.int 1)).2.1 (by decide)
  · exact (select_post_bounds _ 1 (PyVal.int 2)).2.2.1 (by decide) (by decide) rfl
  · exact (select_post_bounds _ (-2) (PyVal.int 1)).2.2.2 (by decide) (by decide) rfl

/-- A tag-search request as issued by `BooruService.search_tags`: either an
exact-name search (`name=query`) or a wildcard pattern search
(`tags=pattern`). -/
inductive TagRequest where
  | byName (name : String) (limit : Int)
  | byPattern (pat : String) (limit : Int)

/-- `BooruService.search_tags_with_fallback` (services/booru_service.py),
with `search_tags` abstracted as an oracle; the second component records the
requests issued, in order.  The source tries the exact-name search first and
retries with the query wrapped as `%query%` exactly when the exact search
returned no tags and `len(query) >= 3`. -/
def searchTagsWithFallback (search : TagRequest → List PyVal) (query : String)
    (limit : Int) : List PyVal × List TagRequest :=
  let tags := search (TagRequest.byName query limit)
  if tags.isEmpty ∧ 3 ≤ query.length then
    (search (TagRequest.byPattern ("%" ++ query ++ "%") limit),
     [TagRequest.byName query limit, TagRequest.byPattern ("%" ++ query ++ "%") limit])
  else
    (tags, [TagRequest.byName query limit])

/-- Claim C6: `searchWithFallback` always performs the exact-name search
first; it performs the `%query%` pattern search iff the exact search yields
zero tags and `len(query) ≥ 3`; a non-empty exact result is returned as-is;
and a query shorter than 3 characters with zero exact matches returns empty
with no second request. -/
theorem tag_search_fallback_condition (search : TagRequest → List PyVal)
    (query : String) (limit : Int) :
    (searchTagsWithFallback search query limit).2.head?
      = some (TagRequest.byName query limit) ∧
    (search (TagRequest.byName query limit) ≠ [] →
      searchTagsWithFallback search query limit
        = (search (TagRequest.byName query limit), [TagRequest.byName query limit])) ∧
    (search (TagRequest.byName query limit) = [] → query.length < 3 →
      searchTagsWithFallback search query limit
        = ([], [TagRequest.byName query limit])) ∧
    (search (TagRequest.byName query limit) = [] → 3 ≤ query.length →
      searchTagsWithFallback search query limit
        = (search (TagRequest.byPattern ("%" ++ query ++ "%") limit),
           [TagRequest.byName query limit,
            TagRequest.byPattern ("%" ++ query ++ "%") limit])) ∧
    (TagRequest.byPattern ("%" ++ query ++ "%") limit
        ∈ (searchTagsWithFallback search query limit).2 ↔
      (search (TagRequest.byName query limit) = [] ∧ 3 ≤ query.length)) := by
  unfold searchTagsWithFallback
  by_cases hcond : (search (TagRequest.byName query limit)).isEmpty ∧ 3 ≤ query.length
  · rw [if_pos hcond]
    have hempty : search (TagRequest.byName query limit) = [] :=
      List.isEmpty_iff.mp hcond.1
    refine ⟨rfl, ?_, ?_, ?_, ?_⟩
    · intro hne
      exact absurd hempty hne
    · intro _ hlt
      omega
    · intro _ _
      rfl
    · simp [hempty, hcond.2]
  · rw [if_neg hcond]
    refine ⟨rfl, ?_, ?_, ?_, ?_⟩
    · intro _
      rfl
    · intro hempty _
      rw [hempty]
    · intro hempty hge
      exact absurd ⟨List.isEmpty_iff.mpr hempty, hge⟩ hcond
    · constructor
      · intro hmem
        rcases List.mem_singleton.mp hmem with h
        exact absurd h (by intro h; cases h)
      · intro ⟨hempty, hge⟩
        exact absurd ⟨List.isEmpty_iff.mpr hempty, hge⟩ hcond

/-- Witness for C6: a two-character query with zero exact matches issues no
pattern request, and a three-character query with zero exact matches does. -/
theorem tag_search_fallback_condition_witness :
    searchTagsWithFallback (fun _ => []) "ab" 20 = ([], [TagRequest.byName "ab" 20]) ∧
    searchTagsWithFallback (fun _ => []) "cat" 20
      = ([], [TagRequest.byName "cat" 20, TagRequest.byPattern "%cat%" 20]) := by
  constructor
  · exact (tag_search_fallback_condition (fun _ => []) "ab" 20).2.2.1 rfl (by decide)
  · exact (tag_search_fallback_condition (fun _ => []) "cat" 20).2.2.2.1 rfl (by decide)

/-- `UserService.add_auto_tag` (services/user_service.py) acting on the
settings record it reads, modifies and saves: returns `False` and leaves the
settings unchanged when the tag is already present, otherwise appends the
tag and returns `True`. -/
def add_auto_tag (settings : UserSettings) (tag : String) : Bool × UserSettings :=
  if tag ∈ settings.auto_tags then (false, settings)
  else (true, { settings with auto_tags := settings.auto_tags ++ [tag] })

/-- Claim C9: adding an already-present auto tag returns `False` and leaves
`auto_tags` unchanged; with duplicate-free settings the list stays
duplicate-free, and adding the same tag twice returns `False` on the second
call and leaves exactly one occurrence of the tag. -/
theorem add_auto_tag_no_duplicates (s : UserSettings) (t : String)
    (h : s.auto_tags.Nodup) :
    (t ∈ s.auto_tags → add_auto_tag s t = (false, s)) ∧
    (add_auto_tag s t).2.auto_tags.Nodup ∧
    (add_auto_tag (add_auto_tag s t).2 t).1 = false ∧
    (add_auto_tag (add_auto_tag s t).2 t).2.auto_tags.count t = 1 := by
  by_cases hm : t ∈ s.auto_tags
  · have h1 : add_auto_tag s t = (false, s) := by
      unfold add_auto_tag
      rw [if_pos hm]
    refine ⟨fun _ => h1, ?_, ?_, ?_⟩
    · rw [h1]
      exact h
    · rw [h1, h1]
    · rw [h1, h1]
      exact List.count_eq_one_of_mem h hm
  · have h1 : add_auto_tag s t
        = (true, { s with auto_tags := s.auto_tags ++ [t] }) := by
      unfold add_auto_tag
      rw [if_neg hm]
    have hmem2 : t ∈ s.auto_tags ++ [t] := by
      simp
    have h2 : add_auto_tag { s with auto_tags := s.auto_tags ++ [t] } t
        = (false, { s with auto_tags := s.auto_tags ++ [t] }) := by
      unfold add_auto_tag
      rw [if_pos hmem2]
    refine ⟨fun hmm => absurd hmm hm, ?_, ?_, ?_⟩
    · rw [h1]
      simp [List.nodup_append, h, hm]
    · rw [h1, h2]
    · rw [h1, h2]
      simp [List.count_append, List.count_eq_zero_of_not_mem hm]

/-- Witness for C9 starting from empty settings and adding
`"rating:safe"` twice. -/
theorem add_auto_tag_no_duplicates_witness :
    (add_auto_tag (add_auto_tag ⟨[], []⟩ "rating:safe").2 "rating:safe").1 = false ∧
    (add_auto_tag (add_auto_tag ⟨[], []⟩ "rating:safe").2 "rating:safe").2.auto_tags.count
      "rating:safe" = 1 := by
  have h := add_auto_tag_no_duplicates ⟨[], []⟩ "rating:safe" (by decide)
  exact ⟨h.2.2.1, h.2.2.2⟩

/-- Python dict lookup on the insertion-ordered rule map. -/
def pyLookupBool (m : List (String × Bool)) (k : String) : Option Bool :=
  match m with
  | [] => Option.none
  | (k', v) :: rest => if k' = k then some v else pyLookupBool rest k

/-- Python `m.get(k, default)` on the rule map. -/
def pyGetBoolD (m : List (String × Bool)) (k : String) (dflt : Bool) : Bool :=
  (pyLookupBool m k).getD dflt

/-- Python `m[k] = v` on the rule map: update in place when the key exists,
append otherwise. -/
def pySetBool (m : List (String × Bool)) (k : String) (v : Bool) :
    List (String × Bool) :=
  match m with
  | [] => [(k, v)]
  | (k', v') :: rest =>
    if k' = k then (k', v) :: rest else (k', v') :: pySetBool rest k v

/-- `UserService.toggle_rule` (services/user_service.py) acting on the
settings record: reads the current state with default `False`, negates it,
stores it, and returns the new state. -/
def toggle_rule (settings : UserSettings) (rule : String) : Bool × UserSettings :=
  let currentState := pyGetBoolD settings.toggle_rules rule false
  let newState := !currentState
  (newState, { settings with toggle_rules := pySetBool settings.toggle_rules rule newState })

theorem pyLookupBool_pySetBool (m : List (String × Bool)) (k : String) (v : Bool) :
    pyLookupBool (pySetBool m k v) k = some v := by
  induction m with
  | nil => simp [pySetBool, pyLookupBool]
  | cons kv rest ih =>
    obtain ⟨k', v'⟩ := kv
    by_cases hk : k' = k
    · simp [pySetBool, pyLookupBool, hk]
    · simp [pySetBool, pyLookupBool, hk, ih]

/-- Claim C10: `toggle_rule` returns the negation of the rule's current
state (absent rules count as disabled, so their first toggle enables them
and returns `True`), and toggling the same rule twice restores the rule's
original enabled state. -/
theorem toggle_rule_involution (s : UserSettings) (r : String) :
    (toggle_rule s r).1 = !(pyGetBoolD s.toggle_rules r false) ∧
    (pyLookupBool s.toggle_rules r = Option.none → (toggle_rule s r).1 = true) ∧
    pyGetBoolD ((toggle_rule (toggle_rule s r).2 r).2).toggle_rules r false
      = pyGetBoolD s.toggle_rules r false := by
  refine ⟨rfl, ?_, ?_⟩
  · intro habs
    simp [toggle_rule, pyGetBoolD, habs]
  · simp only [toggle_rule, pyGetBoolD, pyLookupBool_pySetBool, Option.getD_some,
      Bool.not_not]

/-- Witness for C10: toggling an absent rule returns `True`, and toggling it
twice restores the disabled state. -/
theorem toggle_rule_involution_witness :
    (toggle_rule ⟨[], []⟩ "rating:safe").1 = true ∧
    pyGetBoolD ((toggle_rule (toggle_rule ⟨[], []⟩ "rating:safe").2 "rating:safe").2).toggle_rules
      "rating:safe" false = false := by
  have h := toggle_rule_involution ⟨[], []⟩ "rating:safe"
  exact ⟨h.2.1 rfl, h.2.2⟩

end Telbooru
